import Mathlib

/-!
Verification of the UDP header codec in pkg/tcpip/header/udp.go (gVisor).

The embedding models a Go byte slice as a `List Nat` of byte values. The
Go runtime bounds check of `binary.BigEndian.Uint16` / `PutUint16` and of
slice expressions, which panics when the region is too short, is modelled
by `Option`: `none` is the bounds failure (the Go panic), `some` a
normally returned value. In-place mutation becomes explicit state
passing: a mutator returns the updated region.

The external collaborators of udp.go (the Internet checksum primitive,
the pseudo-header checksum seed routine, the vectorised payload view and
the network protocol constants) are not part of this repository slice;
they are modelled from the spec, each marked in its doc comment.
-/

/-- Bytes models a Go byte slice: a list of byte values. -/
abbrev Bytes := List Nat

/-- UDP represents a UDP header stored in a byte array (udp.go: type UDP). -/
abbrev UDP := Bytes

/-- getUint16BE models binary.BigEndian.Uint16 applied to the subslice of
b starting at off: it reads the bytes at off and off+1, most significant
first, and fails (the Go bounds panic) when the region is too short. -/
def getUint16BE (b : Bytes) (off : Nat) : Option Nat :=
  match b.get? off, b.get? (off + 1) with
  | some hi, some lo => some (hi * 256 + lo)
  | _, _ => none

/-- putUint16BE models binary.BigEndian.PutUint16 applied to the subslice
of b starting at off: it writes the most significant byte of v at off and
the least significant byte at off+1, failing (the Go bounds panic) when
the region is too short. -/
def putUint16BE (b : Bytes) (off v : Nat) : Option Bytes :=
  if off + 2 ≤ b.length then
    some ((b.set off (v / 256 % 256)).set (off + 1) (v % 256))
  else
    none

/-- udpSrcPort is the byte offset of the source port field (udp.go). -/
def udpSrcPort : Nat := 0

/-- udpDstPort is the byte offset of the destination port field (udp.go). -/
def udpDstPort : Nat := 2

/-- udpLength is the byte offset of the length field (udp.go). -/
def udpLength : Nat := 4

/-- udpChecksum is the byte offset of the checksum field (udp.go). -/
def udpChecksum : Nat := 6

/-- UDPMaximumPacketSize is the largest possible UDP packet (udp.go). -/
def UDPMaximumPacketSize : Nat := 0xffff

/-- UDPMinimumSize is the minimum size of a valid UDP packet (udp.go). -/
def UDPMinimumSize : Nat := 8

/-- UDPMaximumSize is the maximum size of a valid UDP packet (udp.go). -/
def UDPMaximumSize : Nat := 0xffff

/-- UDPProtocolNumber is the UDP transport protocol number (udp.go). -/
def UDPProtocolNumber : Nat := 17

/-- Modelled from the spec: the IPv4 network protocol identifier
(constant IPv4ProtocolNumber of the enclosing stack, absent from this
repository slice); only its being distinct from the IPv6 identifier
matters to udp.go. -/
def IPv4ProtocolNumber : Nat := 0x0800

/-- Modelled from the spec: the IPv6 network protocol identifier
(constant IPv6ProtocolNumber of the enclosing stack, absent from this
repository slice). -/
def IPv6ProtocolNumber : Nat := 0x86dd

/-- onesAdd is 16-bit ones-complement addition with end-around carry; for
arguments below 2^16 one folding step absorbs the carry. -/
def onesAdd (a b : Nat) : Nat := (a + b) % 65536 + (a + b) / 65536

/-- Modelled from the spec: the external Internet checksum primitive
(function Checksum of the enclosing header package, absent from this
repository slice): a ones-complement running sum with end-around carry
over a byte span read as big-endian 16-bit words, an odd trailing byte
padded with a zero low byte, composable across spans through the seed. -/
def checksum : Bytes → Nat → Nat
  | [], sum => sum
  | [b1], sum => onesAdd sum (b1 * 256)
  | b1 :: b2 :: rest, sum => checksum rest (onesAdd sum (b1 * 256 + b2))

/-- Modelled from the spec: the external pseudo-header checksum seed
routine (function PseudoHeaderChecksum of the enclosing header package,
absent from this repository slice): it combines the transport protocol
number, the two network addresses and the length value into a seed. -/
def pseudoHeaderChecksum (protocol : Nat) (addrA addrB : Bytes) (totalLen : Nat) : Nat :=
  onesAdd (onesAdd (checksum addrB (checksum addrA 0)) protocol) totalLen

/-- UDPFields contains the fields of a UDP packet (udp.go). -/
structure UDPFields : Type where
  SrcPort : Nat
  DstPort : Nat
  Length : Nat
  Checksum : Nat

/-- SourcePort returns the source port field of the udp header (udp.go). -/
def UDP.SourcePort (b : UDP) : Option Nat := getUint16BE b udpSrcPort

/-- DestinationPort returns the destination port field (udp.go). -/
def UDP.DestinationPort (b : UDP) : Option Nat := getUint16BE b udpDstPort

/-- Length returns the length field of the udp header (udp.go). -/
def UDP.Length (b : UDP) : Option Nat := getUint16BE b udpLength

/-- Payload returns the data contained in the UDP datagram: the subslice
b[UDPMinimumSize:], failing (Go bounds panic) on a shorter region. -/
def UDP.Payload (b : UDP) : Option Bytes :=
  if UDPMinimumSize ≤ b.length then some (b.drop UDPMinimumSize) else none

/-- Checksum returns the checksum field of the udp header (udp.go). -/
def UDP.Checksum (b : UDP) : Option Nat := getUint16BE b udpChecksum

/-- SetSourcePort sets the source port field (udp.go). -/
def UDP.SetSourcePort (b : UDP) (port : Nat) : Option Bytes :=
  putUint16BE b udpSrcPort port

/-- SetDestinationPort sets the destination port field (udp.go). -/
def UDP.SetDestinationPort (b : UDP) (port : Nat) : Option Bytes :=
  putUint16BE b udpDstPort port

/-- SetChecksum sets the checksum field (udp.go). -/
def UDP.SetChecksum (b : UDP) (xsum : Nat) : Option Bytes :=
  putUint16BE b udpChecksum xsum

/-- SetLength sets the length field (udp.go). -/
def UDP.SetLength (b : UDP) (length : Nat) : Option Bytes :=
  putUint16BE b udpLength length

/-- CalculateChecksum calculates the checksum of the udp packet, given
the accumulated checksum of the network-layer pseudo-header and of the
payload: Checksum(b[:UDPMinimumSize], partialChecksum) (udp.go). -/
def UDP.CalculateChecksum (b : UDP) (partialChecksum : Nat) : Option Nat :=
  if UDPMinimumSize ≤ b.length then
    some (checksum (b.take UDPMinimumSize) partialChecksum)
  else
    none

/-- IsChecksumValid performs checksum validation (udp.go). The
vectorised payload view is modelled as the list of its byte spans in
order, which is what data.Views() yields. -/
def UDP.IsChecksumValid (b : UDP) (src dst : Bytes) (netProto : Nat)
    (data : List Bytes) : Option Bool :=
  match UDP.Checksum b with
  | none => none
  | some cks =>
    if cks = 0 ∧ netProto = IPv4ProtocolNumber then
      some true
    else
      match UDP.Length b with
      | none => none
      | some len =>
        (UDP.CalculateChecksum b
          (List.foldl (fun x v => checksum v x)
            (pseudoHeaderChecksum UDPProtocolNumber dst src len) data)).map
          (fun c => decide (c = 0xffff))

/-- Encode encodes all the fields of the udp header (udp.go): the same
four PutUint16 writes as the individual mutators, in source order. -/
def UDP.Encode (b : UDP) (u : UDPFields) : Option Bytes :=
  (putUint16BE b udpSrcPort u.SrcPort).bind fun b1 =>
  (putUint16BE b1 udpDstPort u.DstPort).bind fun b2 =>
  (putUint16BE b2 udpLength u.Length).bind fun b3 =>
  putUint16BE b3 udpChecksum u.Checksum

/-- Decomposition of a region of at least UDPMinimumSize bytes into its
eight header bytes and its payload tail. -/
theorem exists_cons8 (b : Bytes) (h : 8 ≤ b.length) :
    ∃ a0 a1 a2 a3 a4 a5 a6 a7 t,
      b = a0 :: a1 :: a2 :: a3 :: a4 :: a5 :: a6 :: a7 :: t := by
  rcases b with _ | ⟨a0, _ | ⟨a1, _ | ⟨a2, _ | ⟨a3, _ | ⟨a4, _ | ⟨a5, _ | ⟨a6, _ | ⟨a7, t⟩⟩⟩⟩⟩⟩⟩⟩
  all_goals first
    | exact ⟨_, _, _, _, _, _, _, _, _, rfl⟩
    | (simp at h)

/-- Decomposition of a region of exactly 7 bytes. -/
theorem exists_eq7 (b : Bytes) (h : b.length = 7) :
    ∃ a0 a1 a2 a3 a4 a5 a6, b = [a0, a1, a2, a3, a4, a5, a6] := by
  rcases b with _ | ⟨a0, _ | ⟨a1, _ | ⟨a2, _ | ⟨a3, _ | ⟨a4, _ | ⟨a5, _ | ⟨a6, _ | ⟨a7, t⟩⟩⟩⟩⟩⟩⟩⟩
  all_goals first
    | exact ⟨_, _, _, _, _, _, _, rfl⟩
    | (simp at h)

/-- C1: on a region of at least 8 bytes whose stored Checksum field is 0,
IsChecksumValid over IPv4 returns true for every payload span sequence
and every pair of addresses, without any checksum computation. -/
theorem UDP.isChecksumValid_zero_ipv4 (b src dst : Bytes) (data : List Bytes)
    (_h8 : 8 ≤ b.length) (hz : UDP.Checksum b = some 0) :
    UDP.IsChecksumValid b src dst IPv4ProtocolNumber data = some true := by
  simp [UDP.IsChecksumValid, hz]

/-- Witness for C1 at the concrete vector 00 35 04 D2 00 10 00 00. -/
theorem UDP.isChecksumValid_zero_ipv4_witness :
    8 ≤ ([0, 53, 4, 210, 0, 16, 0, 0] : Bytes).length ∧
    UDP.Checksum [0, 53, 4, 210, 0, 16, 0, 0] = some 0 ∧
    UDP.IsChecksumValid [0, 53, 4, 210, 0, 16, 0, 0] [192, 168, 0, 1] [10, 0, 0, 1]
      IPv4ProtocolNumber [[1, 2, 3]] = some true :=
  ⟨by decide, by decide,
    UDP.isChecksumValid_zero_ipv4 _ _ _ _ (by decide) (by decide)⟩

/-- C2: whenever the IPv4 zero-checksum bypass does not apply,
IsChecksumValid returns true exactly when the ones-complement
accumulation of the pseudo-header seed (protocol 17, dst, src, stored
Length value), then each payload span in order, then the 8 header bytes,
equals 0xFFFF. -/
theorem UDP.isChecksumValid_iff_full_computation (b src dst : Bytes) (netProto : Nat)
    (data : List Bytes) (cks len : Nat)
    (hcks : UDP.Checksum b = some cks) (hlen : UDP.Length b = some len)
    (h8 : 8 ≤ b.length)
    (hby : ¬(cks = 0 ∧ netProto = IPv4ProtocolNumber)) :
    (UDP.IsChecksumValid b src dst netProto data = some true ↔
      checksum (b.take 8)
        (List.foldl (fun x v => checksum v x)
          (pseudoHeaderChecksum UDPProtocolNumber dst src len) data) = 0xffff) := by
  simp only [UDP.IsChecksumValid, hcks, hlen, UDP.CalculateChecksum, UDPMinimumSize]
  rw [if_neg hby, if_pos h8]
  simp

/-- Witness for C2: nonzero stored checksum over IPv4. -/
theorem UDP.isChecksumValid_iff_full_computation_witness :
    UDP.Checksum [0, 53, 4, 210, 0, 16, 0, 1] = some 1 ∧
    UDP.Length [0, 53, 4, 210, 0, 16, 0, 1] = some 16 ∧
    8 ≤ ([0, 53, 4, 210, 0, 16, 0, 1] : Bytes).length ∧
    ¬((1 : Nat) = 0 ∧ IPv4ProtocolNumber = IPv4ProtocolNumber) ∧
    (UDP.IsChecksumValid [0, 53, 4, 210, 0, 16, 0, 1] [192, 168, 0, 1] [10, 0, 0, 1]
        IPv4ProtocolNumber [[1, 2], [3]] = some true ↔
      checksum (([0, 53, 4, 210, 0, 16, 0, 1] : Bytes).take 8)
        (List.foldl (fun x v => checksum v x)
          (pseudoHeaderChecksum UDPProtocolNumber [10, 0, 0, 1] [192, 168, 0, 1] 16)
          [[1, 2], [3]]) = 0xffff) :=
  ⟨by decide, by decide, by decide, by decide,
    UDP.isChecksumValid_iff_full_computation [0, 53, 4, 210, 0, 16, 0, 1]
      [192, 168, 0, 1] [10, 0, 0, 1] IPv4ProtocolNumber [[1, 2], [3]] 1 16
      (by decide) (by decide) (by decide) (by decide)⟩

/-- C3: on a region of at least 8 bytes whose stored Checksum field is 0,
IsChecksumValid over IPv6 takes no bypass: its result is exactly the
result of the full pseudo-header, payload and header computation. -/
theorem UDP.isChecksumValid_ipv6_no_bypass (b src dst : Bytes) (data : List Bytes)
    (len : Nat) (h8 : 8 ≤ b.length)
    (hz : UDP.Checksum b = some 0) (hlen : UDP.Length b = some len) :
    UDP.IsChecksumValid b src dst IPv6ProtocolNumber data =
      some (decide (checksum (b.take 8)
        (List.foldl (fun x v => checksum v x)
          (pseudoHeaderChecksum UDPProtocolNumber dst src len) data) = 0xffff)) := by
  simp only [UDP.IsChecksumValid, hz, hlen, UDP.CalculateChecksum, UDPMinimumSize]
  rw [if_neg (by decide), if_pos h8]
  simp

/-- Witness for C3 at the concrete vector 00 35 04 D2 00 10 00 00 over
IPv6: the result is the full computation, which here is false. -/
theorem UDP.isChecksumValid_ipv6_no_bypass_witness :
    8 ≤ ([0, 53, 4, 210, 0, 16, 0, 0] : Bytes).length ∧
    UDP.Checksum [0, 53, 4, 210, 0, 16, 0, 0] = some 0 ∧
    UDP.Length [0, 53, 4, 210, 0, 16, 0, 0] = some 16 ∧
    UDP.IsChecksumValid [0, 53, 4, 210, 0, 16, 0, 0] [192, 168, 0, 1] [10, 0, 0, 1]
        IPv6ProtocolNumber [[1, 2, 3]] =
      some (decide (checksum (([0, 53, 4, 210, 0, 16, 0, 0] : Bytes).take 8)
        (List.foldl (fun x v => checksum v x)
          (pseudoHeaderChecksum UDPProtocolNumber [10, 0, 0, 1] [192, 168, 0, 1] 16)
          [[1, 2, 3]]) = 0xffff)) :=
  ⟨by decide, by decide, by decide,
    UDP.isChecksumValid_ipv6_no_bypass _ _ _ _ _ (by decide) (by decide) (by decide)⟩

/-- C4: CalculateChecksum is the Internet checksum of exactly the first
8 bytes of the region seeded with the partial checksum, and reads no
byte beyond offset 8: truncating the region to its first 8 bytes does
not change the result. -/
theorem UDP.calculateChecksum_first8 (b : Bytes) (partialChecksum : Nat)
    (h8 : 8 ≤ b.length) :
    UDP.CalculateChecksum b partialChecksum =
        some (checksum (b.take 8) partialChecksum) ∧
    UDP.CalculateChecksum (b.take 8) partialChecksum =
        UDP.CalculateChecksum b partialChecksum := by
  constructor
  · simp only [UDP.CalculateChecksum, UDPMinimumSize]
    rw [if_pos h8]
  · simp only [UDP.CalculateChecksum, UDPMinimumSize, List.length_take]
    rw [if_pos (by omega), if_pos h8, List.take_take]
    norm_num

/-- Witness for C4 at a 10-byte region. -/
theorem UDP.calculateChecksum_first8_witness :
    8 ≤ ([0, 53, 4, 210, 0, 16, 171, 205, 99, 100] : Bytes).length ∧
    UDP.CalculateChecksum [0, 53, 4, 210, 0, 16, 171, 205, 99, 100] 7 =
        some (checksum (([0, 53, 4, 210, 0, 16, 171, 205, 99, 100] : Bytes).take 8) 7) ∧
    UDP.CalculateChecksum (([0, 53, 4, 210, 0, 16, 171, 205, 99, 100] : Bytes).take 8) 7 =
        UDP.CalculateChecksum [0, 53, 4, 210, 0, 16, 171, 205, 99, 100] 7 :=
  ⟨by decide, UDP.calculateChecksum_first8 _ 7 (by decide)⟩

/-- Evaluation of putUint16BE at offset 6 on a region decomposed into
its eight header bytes and tail. -/
theorem putUint16BE_at6 (c0 c1 c2 c3 c4 c5 c6 c7 : Nat) (s : Bytes) (w : Nat) :
    putUint16BE (c0 :: c1 :: c2 :: c3 :: c4 :: c5 :: c6 :: c7 :: s) 6 w =
      some (c0 :: c1 :: c2 :: c3 :: c4 :: c5 :: w / 256 % 256 :: w % 256 :: s) := by
  simp only [putUint16BE]
  rw [if_pos (by simp only [List.length_cons]; omega)]
  rfl

/-- Evaluation of CalculateChecksum on a decomposed region. -/
theorem calculateChecksum_cons8 (c0 c1 c2 c3 c4 c5 c6 c7 : Nat) (s : Bytes) (pc : Nat) :
    UDP.CalculateChecksum (c0 :: c1 :: c2 :: c3 :: c4 :: c5 :: c6 :: c7 :: s) pc =
      some (checksum [c0, c1, c2, c3, c4, c5, c6, c7] pc) := by
  simp only [UDP.CalculateChecksum, UDPMinimumSize]
  rw [if_pos (by simp only [List.length_cons]; omega)]
  rfl

/-- Evaluation of Payload on a decomposed region. -/
theorem payload_cons8 (c0 c1 c2 c3 c4 c5 c6 c7 : Nat) (s : Bytes) :
    UDP.Payload (c0 :: c1 :: c2 :: c3 :: c4 :: c5 :: c6 :: c7 :: s) = some s := by
  simp only [UDP.Payload, UDPMinimumSize]
  rw [if_pos (by simp only [List.length_cons]; omega)]
  rfl

/-- Evaluation of Encode on a decomposed region. -/
theorem encode_cons8 (c0 c1 c2 c3 c4 c5 c6 c7 : Nat) (s : Bytes) (u : UDPFields) :
    UDP.Encode (c0 :: c1 :: c2 :: c3 :: c4 :: c5 :: c6 :: c7 :: s) u =
      some (u.SrcPort / 256 % 256 :: u.SrcPort % 256 ::
            u.DstPort / 256 % 256 :: u.DstPort % 256 ::
            u.Length / 256 % 256 :: u.Length % 256 ::
            u.Checksum / 256 % 256 :: u.Checksum % 256 :: s) := by
  show putUint16BE (u.SrcPort / 256 % 256 :: u.SrcPort % 256 ::
        u.DstPort / 256 % 256 :: u.DstPort % 256 ::
        u.Length / 256 % 256 :: u.Length % 256 :: c6 :: c7 :: s) 6 u.Checksum = _
  rw [putUint16BE_at6]

/-- C5 counterexample: the claim that no field accessor on an undersized
region ever silently returns a value fails — on this 7-byte region the
view is not rejected at construction (type UDP is a bare byte slice) and
the very first accessor call SourcePort silently returns a value read
from the undersized region. -/
theorem UDP.sourcePort_seven_byte_counterexample :
    ([0, 53, 4, 210, 0, 16, 0] : Bytes).length = 7 ∧
    UDP.SourcePort [0, 53, 4, 210, 0, 16, 0] = some 53 := by decide

/-- C5 amended: a region shorter than 8 bytes is not rejected at
construction; each accessor bounds-checks only its own 2-byte window.
On a 7-byte region the Checksum accessor (window 6..8) fails with the
Go bounds panic, while SourcePort, DestinationPort and Length silently
return values read from the undersized region. -/
theorem UDP.seven_byte_region_accessors (b : Bytes) (h7 : b.length = 7) :
    UDP.Checksum b = none ∧
    (UDP.SourcePort b).isSome = true ∧
    (UDP.DestinationPort b).isSome = true ∧
    (UDP.Length b).isSome = true := by
  obtain ⟨a0, a1, a2, a3, a4, a5, a6, rfl⟩ := exists_eq7 b h7
  exact ⟨rfl, rfl, rfl, rfl⟩

/-- Witness for the amended C5 at a concrete 7-byte region. -/
theorem UDP.seven_byte_region_accessors_witness :
    ([9, 8, 7, 6, 5, 4, 3] : Bytes).length = 7 ∧
    (UDP.Checksum [9, 8, 7, 6, 5, 4, 3] = none ∧
     (UDP.SourcePort [9, 8, 7, 6, 5, 4, 3]).isSome = true ∧
     (UDP.DestinationPort [9, 8, 7, 6, 5, 4, 3]).isSome = true ∧
     (UDP.Length [9, 8, 7, 6, 5, 4, 3]).isSome = true) :=
  ⟨by decide, UDP.seven_byte_region_accessors _ (by decide)⟩

/-- On a region shorter than 8 bytes, the operations whose accessed
window crosses the end of the region all fail with the Go bounds panic
(none): the Checksum accessor, SetChecksum, CalculateChecksum, Payload,
IsChecksumValid and Encode. -/
theorem shortRegionOps (c : Bytes) (hc : c.length < 8) (v pc : Nat)
    (u : UDPFields) (src dst : Bytes) (netProto : Nat) (data : List Bytes) :
    UDP.Checksum c = none ∧
    UDP.SetChecksum c v = none ∧
    UDP.CalculateChecksum c pc = none ∧
    UDP.Payload c = none ∧
    UDP.IsChecksumValid c src dst netProto data = none ∧
    UDP.Encode c u = none := by
  rcases c with _ | ⟨a0, _ | ⟨a1, _ | ⟨a2, _ | ⟨a3, _ | ⟨a4, _ | ⟨a5, _ | ⟨a6, _ | ⟨a7, t⟩⟩⟩⟩⟩⟩⟩⟩
  all_goals first
    | exact ⟨rfl, rfl, rfl, rfl, rfl, rfl⟩
    | (simp only [List.length_cons] at hc; omega)

/-- C6 counterexample: the Checksum accessor on a malformed 7-byte
region does not resolve to any reported value: the Go method returns a
bare uint16 with no error channel, and binary.BigEndian.Uint16 panics on
the short subslice (modelled by none), contradicting the claim that
every operation resolves to a reported condition rather than a panic. -/
theorem UDP.checksum_short_region_counterexample :
    UDP.Checksum [0, 0, 4, 210, 0, 16, 9] = none ∧
    ([0, 0, 4, 210, 0, 16, 9] : Bytes).length < 8 := by decide

/-- C6 amended: no operation reads out of bounds or is undefined: on a
region of at least 8 bytes every accessor, mutator, checksum and encode
operation returns a value, and on a region shorter than 8 bytes the
operations whose accessed window crosses the end of the region fail
with the Go bounds-check panic (none) instead of silently reading. -/
theorem UDP.operations_no_ub (b c : Bytes) (v pc : Nat) (u : UDPFields)
    (src dst : Bytes) (netProto : Nat) (data : List Bytes)
    (h8 : 8 ≤ b.length) (hc : c.length < 8) :
    (UDP.SourcePort b).isSome = true ∧
    (UDP.DestinationPort b).isSome = true ∧
    (UDP.Length b).isSome = true ∧
    (UDP.Checksum b).isSome = true ∧
    (UDP.Payload b).isSome = true ∧
    (UDP.SetSourcePort b v).isSome = true ∧
    (UDP.SetDestinationPort b v).isSome = true ∧
    (UDP.SetLength b v).isSome = true ∧
    (UDP.SetChecksum b v).isSome = true ∧
    (UDP.CalculateChecksum b pc).isSome = true ∧
    (UDP.Encode b u).isSome = true ∧
    (UDP.IsChecksumValid b src dst netProto data).isSome = true ∧
    UDP.Checksum c = none ∧
    UDP.SetChecksum c v = none ∧
    UDP.CalculateChecksum c pc = none ∧
    UDP.Payload c = none ∧
    UDP.IsChecksumValid c src dst netProto data = none ∧
    UDP.Encode c u = none := by
  obtain ⟨a0, a1, a2, a3, a4, a5, a6, a7, t, rfl⟩ := exists_cons8 b h8
  have hck : UDP.Checksum (a0 :: a1 :: a2 :: a3 :: a4 :: a5 :: a6 :: a7 :: t) =
      some (a6 * 256 + a7) := rfl
  have hln : UDP.Length (a0 :: a1 :: a2 :: a3 :: a4 :: a5 :: a6 :: a7 :: t) =
      some (a4 * 256 + a5) := rfl
  have hvalid : (UDP.IsChecksumValid (a0 :: a1 :: a2 :: a3 :: a4 :: a5 :: a6 :: a7 :: t)
      src dst netProto data).isSome = true := by
    by_cases hif : a6 * 256 + a7 = 0 ∧ netProto = IPv4ProtocolNumber
    · simp [UDP.IsChecksumValid, hck, hif]
    · simp only [UDP.IsChecksumValid, hck, hln]
      rw [if_neg hif, calculateChecksum_cons8]
      rfl
  obtain ⟨s1, s2, s3, s4, s5, s6⟩ := shortRegionOps c hc v pc u src dst netProto data
  refine ⟨rfl, rfl, rfl, rfl, ?_, rfl, rfl, rfl, ?_, ?_, ?_, hvalid,
    s1, s2, s3, s4, s5, s6⟩
  · rw [payload_cons8]; rfl
  · show (putUint16BE (a0 :: a1 :: a2 :: a3 :: a4 :: a5 :: a6 :: a7 :: t) 6 v).isSome = true
    rw [putUint16BE_at6]; rfl
  · rw [calculateChecksum_cons8]; rfl
  · rw [encode_cons8]; rfl

/-- Witness for the amended C6 at a concrete 8-byte region and the
empty region. -/
theorem UDP.operations_no_ub_witness :
    8 ≤ ([0, 53, 4, 210, 0, 16, 0, 7] : Bytes).length ∧
    ([] : Bytes).length < 8 ∧
    ((UDP.SourcePort [0, 53, 4, 210, 0, 16, 0, 7]).isSome = true ∧
     (UDP.DestinationPort [0, 53, 4, 210, 0, 16, 0, 7]).isSome = true ∧
     (UDP.Length [0, 53, 4, 210, 0, 16, 0, 7]).isSome = true ∧
     (UDP.Checksum [0, 53, 4, 210, 0, 16, 0, 7]).isSome = true ∧
     (UDP.Payload [0, 53, 4, 210, 0, 16, 0, 7]).isSome = true ∧
     (UDP.SetSourcePort [0, 53, 4, 210, 0, 16, 0, 7] 99).isSome = true ∧
     (UDP.SetDestinationPort [0, 53, 4, 210, 0, 16, 0, 7] 99).isSome = true ∧
     (UDP.SetLength [0, 53, 4, 210, 0, 16, 0, 7] 99).isSome = true ∧
     (UDP.SetChecksum [0, 53, 4, 210, 0, 16, 0, 7] 99).isSome = true ∧
     (UDP.CalculateChecksum [0, 53, 4, 210, 0, 16, 0, 7] 3).isSome = true ∧
     (UDP.Encode [0, 53, 4, 210, 0, 16, 0, 7] ⟨1, 2, 3, 4⟩).isSome = true ∧
     (UDP.IsChecksumValid [0, 53, 4, 210, 0, 16, 0, 7] [10, 0, 0, 1] [10, 0, 0, 2]
        IPv6ProtocolNumber [[5, 6]]).isSome = true ∧
     UDP.Checksum [] = none ∧
     UDP.SetChecksum [] 99 = none ∧
     UDP.CalculateChecksum [] 3 = none ∧
     UDP.Payload [] = none ∧
     UDP.IsChecksumValid [] [10, 0, 0, 1] [10, 0, 0, 2] IPv6ProtocolNumber [[5, 6]] = none ∧
     UDP.Encode [] ⟨1, 2, 3, 4⟩ = none) :=
  ⟨by decide, by decide,
    UDP.operations_no_ub [0, 53, 4, 210, 0, 16, 0, 7] [] 99 3 ⟨1, 2, 3, 4⟩
      [10, 0, 0, 1] [10, 0, 0, 2] IPv6ProtocolNumber [[5, 6]] (by decide) (by decide)⟩

/-- C7: round-trip: Encode of any field tuple with all components below
2^16 into a region of at least 8 bytes followed by the four accessors
returns exactly the encoded values. -/
theorem UDP.encode_roundtrip (b : Bytes) (u : UDPFields) (h8 : 8 ≤ b.length)
    (hs : u.SrcPort < 65536) (hd : u.DstPort < 65536)
    (hl : u.Length < 65536) (hc : u.Checksum < 65536) :
    (UDP.Encode b u).bind UDP.SourcePort = some u.SrcPort ∧
    (UDP.Encode b u).bind UDP.DestinationPort = some u.DstPort ∧
    (UDP.Encode b u).bind UDP.Length = some u.Length ∧
    (UDP.Encode b u).bind UDP.Checksum = some u.Checksum := by
  obtain ⟨a0, a1, a2, a3, a4, a5, a6, a7, t, rfl⟩ := exists_cons8 b h8
  rw [encode_cons8]
  refine ⟨?_, ?_, ?_, ?_⟩ <;> exact congrArg some (by omega)

/-- Witness for C7 at a concrete region and field tuple. -/
theorem UDP.encode_roundtrip_witness :
    8 ≤ ([1, 2, 3, 4, 5, 6, 7, 8, 9] : Bytes).length ∧
    (0x1234 : Nat) < 65536 ∧ (0xFEDC : Nat) < 65536 ∧
    (16 : Nat) < 65536 ∧ (0xABCD : Nat) < 65536 ∧
    ((UDP.Encode [1, 2, 3, 4, 5, 6, 7, 8, 9] ⟨0x1234, 0xFEDC, 16, 0xABCD⟩).bind
        UDP.SourcePort = some 0x1234 ∧
     (UDP.Encode [1, 2, 3, 4, 5, 6, 7, 8, 9] ⟨0x1234, 0xFEDC, 16, 0xABCD⟩).bind
        UDP.DestinationPort = some 0xFEDC ∧
     (UDP.Encode [1, 2, 3, 4, 5, 6, 7, 8, 9] ⟨0x1234, 0xFEDC, 16, 0xABCD⟩).bind
        UDP.Length = some 16 ∧
     (UDP.Encode [1, 2, 3, 4, 5, 6, 7, 8, 9] ⟨0x1234, 0xFEDC, 16, 0xABCD⟩).bind
        UDP.Checksum = some 0xABCD) :=
  ⟨by decide, by decide, by decide, by decide, by decide,
    UDP.encode_roundtrip [1, 2, 3, 4, 5, 6, 7, 8, 9] ⟨0x1234, 0xFEDC, 16, 0xABCD⟩
      (by decide) (by decide) (by decide) (by decide) (by decide)⟩

/-- C8: every 2-byte field is stored most significant byte first at its
fixed offset: the mutators and Encode write v / 256 then v % 256 at
offsets 0 and 1, 2 and 3, 4 and 5, 6 and 7 respectively. -/
theorem UDP.set_field_big_endian (b : Bytes) (v : Nat) (h8 : 8 ≤ b.length)
    (hv : v < 65536) :
    (UDP.SetSourcePort b v).bind (fun r => r.get? 0) = some (v / 256) ∧
    (UDP.SetSourcePort b v).bind (fun r => r.get? 1) = some (v % 256) ∧
    (UDP.SetDestinationPort b v).bind (fun r => r.get? 2) = some (v / 256) ∧
    (UDP.SetDestinationPort b v).bind (fun r => r.get? 3) = some (v % 256) ∧
    (UDP.SetLength b v).bind (fun r => r.get? 4) = some (v / 256) ∧
    (UDP.SetLength b v).bind (fun r => r.get? 5) = some (v % 256) ∧
    (UDP.SetChecksum b v).bind (fun r => r.get? 6) = some (v / 256) ∧
    (UDP.SetChecksum b v).bind (fun r => r.get? 7) = some (v % 256) ∧
    (UDP.Encode b ⟨v, v, v, v⟩).bind (fun r => r.get? 0) = some (v / 256) ∧
    (UDP.Encode b ⟨v, v, v, v⟩).bind (fun r => r.get? 1) = some (v % 256) := by
  obtain ⟨a0, a1, a2, a3, a4, a5, a6, a7, t, rfl⟩ := exists_cons8 b h8
  simp only [UDP.SetChecksum, udpChecksum]
  rw [putUint16BE_at6, encode_cons8]
  have hsp : ({ SrcPort := v, DstPort := v, Length := v, Checksum := v } : UDPFields).SrcPort
      = v := rfl
  rw [hsp]
  refine ⟨?_, ?_, ?_, ?_, ?_, ?_, ?_, ?_, ?_, ?_⟩ <;> exact congrArg some (by omega)

/-- Witness for C8: encoding source port 0x1234 stores bytes 0x12 then
0x34 at offsets 0 and 1. -/
theorem UDP.set_field_big_endian_witness :
    8 ≤ ([0, 0, 0, 0, 0, 0, 0, 0] : Bytes).length ∧
    (0x1234 : Nat) < 65536 ∧
    ((UDP.SetSourcePort [0, 0, 0, 0, 0, 0, 0, 0] 0x1234).bind
        (fun r => r.get? 0) = some 0x12 ∧
     (UDP.SetSourcePort [0, 0, 0, 0, 0, 0, 0, 0] 0x1234).bind
        (fun r => r.get? 1) = some 0x34 ∧
     (UDP.SetDestinationPort [0, 0, 0, 0, 0, 0, 0, 0] 0x1234).bind
        (fun r => r.get? 2) = some 0x12 ∧
     (UDP.SetDestinationPort [0, 0, 0, 0, 0, 0, 0, 0] 0x1234).bind
        (fun r => r.get? 3) = some 0x34 ∧
     (UDP.SetLength [0, 0, 0, 0, 0, 0, 0, 0] 0x1234).bind
        (fun r => r.get? 4) = some 0x12 ∧
     (UDP.SetLength [0, 0, 0, 0, 0, 0, 0, 0] 0x1234).bind
        (fun r => r.get? 5) = some 0x34 ∧
     (UDP.SetChecksum [0, 0, 0, 0, 0, 0, 0, 0] 0x1234).bind
        (fun r => r.get? 6) = some 0x12 ∧
     (UDP.SetChecksum [0, 0, 0, 0, 0, 0, 0, 0] 0x1234).bind
        (fun r => r.get? 7) = some 0x34 ∧
     (UDP.Encode [0, 0, 0, 0, 0, 0, 0, 0] ⟨0x1234, 0x1234, 0x1234, 0x1234⟩).bind
        (fun r => r.get? 0) = some 0x12 ∧
     (UDP.Encode [0, 0, 0, 0, 0, 0, 0, 0] ⟨0x1234, 0x1234, 0x1234, 0x1234⟩).bind
        (fun r => r.get? 1) = some 0x34) :=
  ⟨by decide, by decide,
    UDP.set_field_big_endian [0, 0, 0, 0, 0, 0, 0, 0] 0x1234 (by decide) (by decide)⟩

/-- C9: Encode performs exactly the same state change as the four
single-field mutators applied in sequence, on every backing region. -/
theorem UDP.encode_eq_four_mutators (b : Bytes) (u : UDPFields) :
    UDP.Encode b u =
      (UDP.SetSourcePort b u.SrcPort).bind fun b1 =>
      (UDP.SetDestinationPort b1 u.DstPort).bind fun b2 =>
      (UDP.SetLength b2 u.Length).bind fun b3 =>
      UDP.SetChecksum b3 u.Checksum := rfl

/-- C10: each single-field mutator changes only its own 2-byte window:
it preserves the region length, and every byte before and after the
window — the other three header fields and the whole payload from
offset 8 on — is unchanged. -/
theorem UDP.set_field_frame (b : Bytes) (v : Nat) (h8 : 8 ≤ b.length) :
    (UDP.SetSourcePort b v).map (List.drop 2) = some (b.drop 2) ∧
    (UDP.SetSourcePort b v).map List.length = some b.length ∧
    (UDP.SetDestinationPort b v).map (List.take 2) = some (b.take 2) ∧
    (UDP.SetDestinationPort b v).map (List.drop 4) = some (b.drop 4) ∧
    (UDP.SetDestinationPort b v).map List.length = some b.length ∧
    (UDP.SetLength b v).map (List.take 4) = some (b.take 4) ∧
    (UDP.SetLength b v).map (List.drop 6) = some (b.drop 6) ∧
    (UDP.SetLength b v).map List.length = some b.length ∧
    (UDP.SetChecksum b v).map (List.take 6) = some (b.take 6) ∧
    (UDP.SetChecksum b v).map (List.drop 8) = some (b.drop 8) ∧
    (UDP.SetChecksum b v).map List.length = some b.length := by
  obtain ⟨a0, a1, a2, a3, a4, a5, a6, a7, t, rfl⟩ := exists_cons8 b h8
  simp only [UDP.SetChecksum, udpChecksum]
  rw [putUint16BE_at6]
  exact ⟨rfl, rfl, rfl, rfl, rfl, rfl, rfl, rfl, rfl, rfl, rfl⟩

/-- Witness for C10 at a concrete 10-byte region. -/
theorem UDP.set_field_frame_witness :
    8 ≤ ([1, 2, 3, 4, 5, 6, 7, 8, 9, 10] : Bytes).length ∧
    ((UDP.SetSourcePort [1, 2, 3, 4, 5, 6, 7, 8, 9, 10] 0xBEEF).map (List.drop 2) =
        some (([1, 2, 3, 4, 5, 6, 7, 8, 9, 10] : Bytes).drop 2) ∧
     (UDP.SetSourcePort [1, 2, 3, 4, 5, 6, 7, 8, 9, 10] 0xBEEF).map List.length =
        some ([1, 2, 3, 4, 5, 6, 7, 8, 9, 10] : Bytes).length ∧
     (UDP.SetDestinationPort [1, 2, 3, 4, 5, 6, 7, 8, 9, 10] 0xBEEF).map (List.take 2) =
        some (([1, 2, 3, 4, 5, 6, 7, 8, 9, 10] : Bytes).take 2) ∧
     (UDP.SetDestinationPort [1, 2, 3, 4, 5, 6, 7, 8, 9, 10] 0xBEEF).map (List.drop 4) =
        some (([1, 2, 3, 4, 5, 6, 7, 8, 9, 10] : Bytes).drop 4) ∧
     (UDP.SetDestinationPort [1, 2, 3, 4, 5, 6, 7, 8, 9, 10] 0xBEEF).map List.length =
        some ([1, 2, 3, 4, 5, 6, 7, 8, 9, 10] : Bytes).length ∧
     (UDP.SetLength [1, 2, 3, 4, 5, 6, 7, 8, 9, 10] 0xBEEF).map (List.take 4) =
        some (([1, 2, 3, 4, 5, 6, 7, 8, 9, 10] : Bytes).take 4) ∧
     (UDP.SetLength [1, 2, 3, 4, 5, 6, 7, 8, 9, 10] 0xBEEF).map (List.drop 6) =
        some (([1, 2, 3, 4, 5, 6, 7, 8, 9, 10] : Bytes).drop 6) ∧
     (UDP.SetLength [1, 2, 3, 4, 5, 6, 7, 8, 9, 10] 0xBEEF).map List.length =
        some ([1, 2, 3, 4, 5, 6, 7, 8, 9, 10] : Bytes).length ∧
     (UDP.SetChecksum [1, 2, 3, 4, 5, 6, 7, 8, 9, 10] 0xBEEF).map (List.take 6) =
        some (([1, 2, 3, 4, 5, 6, 7, 8, 9, 10] : Bytes).take 6) ∧
     (UDP.SetChecksum [1, 2, 3, 4, 5, 6, 7, 8, 9, 10] 0xBEEF).map (List.drop 8) =
        some (([1, 2, 3, 4, 5, 6, 7, 8, 9, 10] : Bytes).drop 8) ∧
     (UDP.SetChecksum [1, 2, 3, 4, 5, 6, 7, 8, 9, 10] 0xBEEF).map List.length =
        some ([1, 2, 3, 4, 5, 6, 7, 8, 9, 10] : Bytes).length) :=
  ⟨by decide, UDP.set_field_frame [1, 2, 3, 4, 5, 6, 7, 8, 9, 10] 0xBEEF (by decide)⟩
